import Mathlib

/-!
Shallow embedding of `src/SimpleSTL/UniquePtr.hpp` (namespace `SimpleSTL`).

Raw pointers `T*` are modelled as `Option Nat`: `none` is `nullptr` and
`some a` is a non-null address `a`.  Every operation whose body contains a
deleter invocation `Deleter{}(m_p)` returns, besides its value-level result,
a log of the deleter invocations it performed, as a list of
(deleter body, address) pairs; operations whose bodies contain no deleter
call return the empty log.  The compile-time selection of the `Deleter`
template parameter (primary template, `DefaultDeleter` specialisations, and
the partial specialisation `UniquePtr<T[], Deleter> : UniquePtr<T, Deleter>`)
is modelled separately by `UniquePtr.instantiate` below.
-/

namespace SimpleSTL

/-- A raw pointer value: `none` is `nullptr`, `some a` a non-null address. -/
abbrev Ptr := Option Nat

/-- Element types a `UniquePtr` can be instantiated over: an ordinary object
type (indexed by a name so there is more than one), an array type `T[]`, and
`FILE`. -/
inductive Ty where
  | obj : Nat → Ty
  | arr : Ty → Ty
  | file : Ty
  deriving DecidableEq

/-- The three `operator()` bodies defined for `DefaultDeleter` in the source:
the primary template calls `delete p`, the `DefaultDeleter<T[]>` partial
specialisation calls `delete[] p`, and the `DefaultDeleter<FILE>` full
specialisation calls `fclose(p)`. -/
inductive DeleterBody where
  | deleteSingle
  | deleteArray
  | fcloseCall
  deriving DecidableEq

/-- Template-argument resolution for `DefaultDeleter<T>`: `DefaultDeleter<U[]>`
matches the `T[]` partial specialisation (`delete[]`), `DefaultDeleter<FILE>`
the full specialisation (`fclose`), and everything else the primary template
(`delete`). -/
def DefaultDeleter : Ty → DeleterBody
  | Ty.arr _ => DeleterBody.deleteArray
  | Ty.file => DeleterBody.fcloseCall
  | Ty.obj _ => DeleterBody.deleteSingle

/-- `T exchange(T &dst, U &&val) { T tmp = std::move(dst); dst = val; return tmp; }`.
The first component is the returned value `tmp`, the second the value held by
`dst` after the call. -/
def exchange {α : Type} (dst val : α) : α × α :=
  let tmp := dst
  (tmp, val)

/-- A log of deleter invocations: which deleter body was invoked on which
address. -/
abbrev Log := List (DeleterBody × Nat)

/-- The state of a `UniquePtr<T, Deleter>` instance: its single data member
`T *m_p`. -/
structure UniquePtr where
  m_p : Ptr
  deriving DecidableEq

/-- The guarded invocation `if (m_p) Deleter{}(m_p);` appearing in the
destructor, in `operator=(UniquePtr&&)` and in `reset`: it invokes deleter
body `D` on the address when the pointer is non-null and does nothing
otherwise. -/
def invokeIfNonNull (D : DeleterBody) (p : Ptr) : Log :=
  match p with
  | some a => [(D, a)]
  | none => []

/-- `UniquePtr(std::nullptr_t dummy = nullptr) { m_p = nullptr; }`. -/
def UniquePtr.nullCtor : UniquePtr := ⟨none⟩

/-- `explicit UniquePtr(T *p) { m_p = p; }`. -/
def UniquePtr.ptrCtor (p : Ptr) : UniquePtr := ⟨p⟩

/-- `T *get() const { return m_p; }`. -/
def UniquePtr.get (self : UniquePtr) : Ptr := self.m_p

/-- `~UniquePtr() { if (m_p) Deleter{}(m_p); }`, where `D` is the `Deleter`
template parameter of the instance; returns the deleter invocations the
destructor performs. -/
def UniquePtr.destructor (D : DeleterBody) (self : UniquePtr) : Log :=
  invokeIfNonNull D self.m_p

/-- Move constructor `UniquePtr(UniquePtr &&that) { m_p = exchange(that.m_p, nullptr); }`:
returns (new instance, mutated source, deleter invocations).  The body
contains no deleter call, so the log is empty. -/
def UniquePtr.moveCtor (that : UniquePtr) : UniquePtr × UniquePtr × Log :=
  let e := exchange that.m_p none
  (⟨e.1⟩, ⟨e.2⟩, [])

/-- Converting move constructor
`template <class U, class UDeleter> requires (std::convertible_to<U*, T*>)
UniquePtr(UniquePtr<U, UDeleter> &&that) { m_p = exchange(that.m_p, nullptr); }`.
The convertibility requirement is compile-time only and does not affect the
value-level behaviour; the body is identical to the plain move constructor
and contains no deleter call. -/
def UniquePtr.convMoveCtor (that : UniquePtr) : UniquePtr × UniquePtr × Log :=
  let e := exchange that.m_p none
  (⟨e.1⟩, ⟨e.2⟩, [])

/-- Move assignment `operator=(UniquePtr &&that)`:
`if (this != &that) { if (m_p) Deleter{}(m_p); m_p = exchange(that.m_p, nullptr); }`.
The identity test `this != &that` is modelled by the flag `same`; when
`same = true` the caller passes the one aliased object for both `self` and
`that`.  Returns (new state of `*this`, new state of `that`, deleter
invocations). -/
def UniquePtr.moveAssign (D : DeleterBody) (same : Bool) (self that : UniquePtr) :
    UniquePtr × UniquePtr × Log :=
  if same then
    (self, that, [])
  else
    let log := invokeIfNonNull D self.m_p
    let e := exchange that.m_p none
    (⟨e.1⟩, ⟨e.2⟩, log)

/-- `T *release() const { return exchange(m_p, nullptr); }`, modelled at value
level from its body: returns (returned pointer, new state, deleter
invocations); the body contains no deleter call.  Note that in the source the
member is declared `const`, so instantiating a call makes `exchange` assign
through a const-qualified reference and the call is ill-formed; the model
gives the data flow the body expresses. -/
def UniquePtr.release (self : UniquePtr) : Ptr × UniquePtr × Log :=
  let e := exchange self.m_p none
  (e.1, ⟨e.2⟩, [])

/-- `void reset(T *p = nullptr) { if (m_p) Deleter{}(m_p); m_p = p; }`:
returns (new state, deleter invocations). -/
def UniquePtr.reset (D : DeleterBody) (self : UniquePtr) (p : Ptr) : UniquePtr × Log :=
  let log := invokeIfNonNull D self.m_p
  (⟨p⟩, log)

/-- `reset()` called with its defaulted argument `p = nullptr`. -/
def UniquePtr.resetDefault (D : DeleterBody) (self : UniquePtr) : UniquePtr × Log :=
  UniquePtr.reset D self none

/-- A resolved instantiation of the `UniquePtr` class template: the element
type of the primary template finally instantiated and the `Deleter` argument
it received, which is the deleter its destructor, move assignment and `reset`
invoke. -/
structure Inst where
  elem : Ty
  deleter : DeleterBody
  deriving DecidableEq

/-- Resolution of `UniquePtr<T, Deleter>` with an explicit deleter argument:
the partial specialisation `UniquePtr<T[], Deleter> : UniquePtr<T, Deleter> {}`
forwards both arguments to its base class, and any non-array element type
instantiates the primary template directly. -/
def UniquePtr.instantiate : Ty → DeleterBody → Inst
  | Ty.arr u, d => UniquePtr.instantiate u d
  | Ty.obj n, d => ⟨Ty.obj n, d⟩
  | Ty.file, d => ⟨Ty.file, d⟩

/-- Resolution of `UniquePtr<T>` with the defaulted second argument
`Deleter = DefaultDeleter<T>` from the primary template declaration. -/
def UniquePtr.instantiateDefault (t : Ty) : Inst :=
  UniquePtr.instantiate t (DefaultDeleter t)

/-- `UniquePtr<T> makeUnique(Args &&...args) { return UniquePtr<T>(new T(args...)); }`.
The outcome of `new T(args...)` is the parameter `allocated`: on success it
yields a fresh non-null address (a throwing `new` never returns null), on
failure it throws, modelled by `Except.error`; the constructor-argument values
themselves do not affect the ownership behaviour.  The wrapping constructor
is a single pointer assignment and cannot fail. -/
def makeUnique {ε : Type} (allocated : Except ε Nat) : Except ε UniquePtr :=
  match allocated with
  | Except.ok a => Except.ok (UniquePtr.ptrCtor (some a))
  | Except.error e => Except.error e

/-- `UniquePtr<T> makeUniqueForOverwrite() { return UniquePtr<T>(new T); }`,
modelled like `makeUnique` (default-initialising allocation). -/
def makeUniqueForOverwrite {ε : Type} (allocated : Except ε Nat) : Except ε UniquePtr :=
  match allocated with
  | Except.ok a => Except.ok (UniquePtr.ptrCtor (some a))
  | Except.error e => Except.error e

/-- The deleter argument is forwarded unchanged through the array partial
specialisation to the primary template that is finally instantiated. -/
theorem instantiate_deleter (t : Ty) (d : DeleterBody) :
    (UniquePtr.instantiate t d).deleter = d := by
  induction t with
  | obj n => rfl
  | arr u ih => simpa [UniquePtr.instantiate] using ih
  | file => rfl

/-- Claim C1: destruction of an instance holding a non-null handle invokes the
release policy exactly once, on that handle; destruction of a null-holding
instance invokes no policy; and an instance constructed with no handle, when
destroyed, reset (with any new handle) or released, never invokes the release
policy. -/
theorem c1_destruction_single_release (D : DeleterBody) (h : Nat) (p : Ptr) :
    UniquePtr.destructor D ⟨some h⟩ = [(D, h)] ∧
    UniquePtr.destructor D ⟨none⟩ = [] ∧
    UniquePtr.destructor D UniquePtr.nullCtor = [] ∧
    (UniquePtr.reset D UniquePtr.nullCtor p).2 = [] ∧
    (UniquePtr.release UniquePtr.nullCtor).2.2 = [] :=
  ⟨rfl, rfl, rfl, rfl, rfl⟩

/-- Claim C2: move-constructing (or converting-move-constructing) `b` from an
instance `a` holding a non-null handle `h` leaves `a.get()` null and
`b.get()` equal to `h`, with no release-policy invocation during the
transfer. -/
theorem c2_move_ctor_nulls_source (h : Nat) :
    UniquePtr.moveCtor ⟨some h⟩ = (⟨some h⟩, ⟨none⟩, []) ∧
    (UniquePtr.moveCtor ⟨some h⟩).1.get = some h ∧
    (UniquePtr.moveCtor ⟨some h⟩).2.1.get = none ∧
    UniquePtr.convMoveCtor ⟨some h⟩ = (⟨some h⟩, ⟨none⟩, []) ∧
    (UniquePtr.convMoveCtor ⟨some h⟩).1.get = some h ∧
    (UniquePtr.convMoveCtor ⟨some h⟩).2.1.get = none :=
  ⟨rfl, rfl, rfl, rfl, rfl, rfl⟩

/-- Claim C3, counterexample: for the default-parameterised array
instantiation `UniquePtr<T[]>` (here over element type `obj 0`, with a
non-null handle at address 5), destruction does NOT invoke the single-object
deletion body `delete`; it invokes the array body `delete[]`, because the
defaulted argument `Deleter = DefaultDeleter<T[]>` is the array
specialisation, forwarded unchanged to the base class. -/
theorem c3_array_deleter_counterexample :
    UniquePtr.destructor (UniquePtr.instantiateDefault (Ty.arr (Ty.obj 0))).deleter ⟨some 5⟩
      ≠ [(DeleterBody.deleteSingle, 5)] ∧
    UniquePtr.destructor (UniquePtr.instantiateDefault (Ty.arr (Ty.obj 0))).deleter ⟨some 5⟩
      = [(DeleterBody.deleteArray, 5)] := by
  constructor
  · decide
  · decide

/-- Claim C3, amended: the array-element partial specialisation re-uses the
generic pointer machinery and does not itself select a release policy, but
under default parameterisation the defaulted `Deleter = DefaultDeleter<T[]>`
argument is already the array-shaped policy (`delete[]`), so destruction of a
non-null handle invokes the whole-array release body, not the single-object
one. -/
theorem c3_array_default_uses_array_policy (u : Ty) (h : Nat) :
    (UniquePtr.instantiateDefault (Ty.arr u)).deleter = DeleterBody.deleteArray ∧
    UniquePtr.destructor (UniquePtr.instantiateDefault (Ty.arr u)).deleter ⟨some h⟩
      = [(DeleterBody.deleteArray, h)] := by
  have hd : (UniquePtr.instantiateDefault (Ty.arr u)).deleter = DeleterBody.deleteArray := by
    simpa [UniquePtr.instantiateDefault, DefaultDeleter] using
      instantiate_deleter (Ty.arr u) (DefaultDeleter (Ty.arr u))
  exact ⟨hd, by simp [hd, UniquePtr.destructor, invokeIfNonNull]⟩

/-- Claim C4: move-assignment between distinct instances invokes the release
policy on `self`'s current handle exactly when that handle is non-null, then
stores `that`'s handle into `self` and leaves `that` null; self-move-assignment
(same instance) changes nothing and performs no policy invocation. -/
theorem c4_move_assign (D : DeleterBody) (self that : UniquePtr) :
    UniquePtr.moveAssign D false self that
      = (⟨that.m_p⟩, ⟨none⟩, self.m_p.elim [] (fun a => [(D, a)])) ∧
    UniquePtr.moveAssign D true self self = (self, self, []) := by
  constructor
  · cases hp : self.m_p with
    | none => simp [UniquePtr.moveAssign, invokeIfNonNull, exchange, hp]
    | some a => simp [UniquePtr.moveAssign, invokeIfNonNull, exchange, hp]
  · rfl

/-- Claim C5: value-level evaluation of the body of `release()` at the failing
input (an instance holding address 7): the body `exchange(m_p, nullptr)`
returns the old handle, nulls the member and invokes no deleter — but in the
source `release()` is declared `const`, so instantiating any call to it is
ill-formed (the assignment inside `exchange` targets a const-qualified
member) and the member can never actually be nulled. -/
theorem c5_release_body_at_failing_input :
    UniquePtr.release ⟨some 7⟩ = (some 7, ⟨none⟩, []) :=
  rfl

/-- Claim C6: `reset(p2)` invokes the release policy on the current handle
exactly once when it is non-null and not at all when it is null, and in both
cases leaves the instance holding `p2`; `reset()` with the defaulted argument
leaves the instance holding null. -/
theorem c6_reset (D : DeleterBody) (a : UniquePtr) (p2 : Ptr) :
    (UniquePtr.reset D a p2).1.get = p2 ∧
    (UniquePtr.reset D a p2).2 = a.m_p.elim [] (fun h => [(D, h)]) ∧
    (UniquePtr.resetDefault D a).1.get = none := by
  refine ⟨rfl, ?_, rfl⟩
  cases hp : a.m_p with
  | none => simp [UniquePtr.reset, invokeIfNonNull, hp]
  | some h => simp [UniquePtr.reset, invokeIfNonNull, hp]

/-- Claim C7: when the underlying allocation succeeds with a fresh address,
`makeUnique` returns an owning pointer whose handle is exactly that non-null
address; when the allocation fails, the failure propagates unchanged and no
owning pointer is produced. -/
theorem c7_makeUnique (ε : Type) (a : Nat) (e : ε) :
    makeUnique (Except.ok a : Except ε Nat) = Except.ok (UniquePtr.ptrCtor (some a)) ∧
    (UniquePtr.ptrCtor (some a)).get = some a ∧
    (UniquePtr.ptrCtor (some a)).get ≠ none ∧
    makeUnique (Except.error e : Except ε Nat) = Except.error e :=
  ⟨rfl, rfl, by simp [UniquePtr.ptrCtor, UniquePtr.get], rfl⟩

/-- Claim C8: `exchange(dst, val)` returns the value `dst` held immediately
before the call and leaves `dst` holding `val`; being a pure function of its
two arguments, it has no effect beyond that single assignment. -/
theorem c8_exchange (α : Type) (dst val : α) :
    (exchange dst val).1 = dst ∧ (exchange dst val).2 = val :=
  ⟨rfl, rfl⟩

/-- Claim C9: `reset` performs no self-reset check: calling `a.reset(h)` on an
instance already holding the non-null handle `h` invokes the release policy
on `h` and stores `h` again, so `a.get()` still equals `h`, and a subsequent
destruction invokes the policy on `h` a second time — two invocations on `h`
in total. -/
theorem c9_reset_same_handle_double_release (D : DeleterBody) (h : Nat) :
    (UniquePtr.reset D ⟨some h⟩ (some h)).1.get = some h ∧
    (UniquePtr.reset D ⟨some h⟩ (some h)).2 = [(D, h)] ∧
    (UniquePtr.reset D ⟨some h⟩ (some h)).2
        ++ UniquePtr.destructor D (UniquePtr.reset D ⟨some h⟩ (some h)).1
      = [(D, h), (D, h)] :=
  ⟨rfl, rfl, rfl⟩

/-- Claim C10: moving from an empty source is safe and inert: move- and
converting-move-construction from a null-holding instance leave both
instances null with no policy invocation, and move-assigning a null-holding
instance into a distinct instance `c` invokes the policy only on what `c`
previously owned (exactly when non-null) and leaves both instances null. -/
theorem c10_move_from_empty (D : DeleterBody) (c : UniquePtr) :
    UniquePtr.moveCtor ⟨none⟩ = (⟨none⟩, ⟨none⟩, []) ∧
    UniquePtr.convMoveCtor ⟨none⟩ = (⟨none⟩, ⟨none⟩, []) ∧
    UniquePtr.moveAssign D false c ⟨none⟩
      = (⟨none⟩, ⟨none⟩, c.m_p.elim [] (fun a => [(D, a)])) := by
  refine ⟨rfl, rfl, ?_⟩
  cases hp : c.m_p with
  | none => simp [UniquePtr.moveAssign, invokeIfNonNull, exchange, hp]
  | some a => simp [UniquePtr.moveAssign, invokeIfNonNull, exchange, hp]

end SimpleSTL
